import Mathlib

/-!
Verification of the kratix-foundry arbitration-and-routing reconciliation
algorithm: a shallow embedding of the License configure pipeline
(promises/foundry-license/configure-pipeline/scripts/generate_route.py and
main.py), the occupancy prober (lib/foundry_lib/foundry_api.py), the manifest
templates (lib/foundry_lib/manifest_templates.py) and the admin-secret
resolution logic of the Instance pipeline
(promises/foundry-instance/configure-pipeline/scripts/generate_manifests.py).

Machine strings stay Lean strings, Python dict lookups with defaults become
Option.getD, Python truthiness of an optional string (absent or empty means
false) becomes optTruthy, and the external collaborators (the Kubernetes
custom-object store, the HTTP transport of the occupancy probe, the secret
store) become explicit parameters: the instance listing is a parameter, the
probe is a function from the probed hostname to the stats dictionary it
returns, and probe invocations are recorded in a probed-hostname list so
call counts are part of the result.
-/

namespace KratixFoundry

/-- Python truthiness of an optional string: None and the empty string are
falsy, every other string is truthy. -/
def optTruthy : Option String → Bool
  | none => false
  | some s => s != ""

/-- The dictionary returned by check_players in lib/foundry_lib/foundry_api.py:
connectedPlayers, worldActive (absent on the error path) and error (absent on
the success path). The checkedAt wall-clock timestamp is omitted: no consumer
in the repository reads it and it is not shallowly embeddable. -/
structure PlayerStats where
  connectedPlayers : Int
  worldActive : Option Bool
  error : Option String
deriving DecidableEq

/-- The outcome of the one HTTP request check_players makes: a 2xx response
with its parsed JSON body (the users and world fields each possibly absent),
or any raised exception (non-2xx from raise_for_status, transport failure,
timeout), which the except-branch collapses into one error result. -/
inductive HttpResult where
  | ok (users : Option Int) (world : Option Bool)
  | fail (message : String)
deriving DecidableEq

/-- check_players from lib/foundry_lib/foundry_api.py, as a function of the
HTTP outcome: on success it reads users with default 0 and world with default
False; on any exception it reports connectedPlayers -1 with the fixed error
string "connection failed". -/
def check_players (resp : HttpResult) : PlayerStats :=
  match resp with
  | .ok users world =>
      { connectedPlayers := users.getD 0
        worldActive := some (world.getD false)
        error := none }
  | .fail _ =>
      { connectedPlayers := -1
        worldActive := none
        error := some "connection failed" }

/-- A FoundryInstance as generate_routes reads it: metadata.name,
spec.licenseRef.name (absent when the nested gets return None) and the
foundry.platform/scheduled-delete-at annotation (absent or its string value). -/
structure Instance where
  name : String
  licenseRef : Option String
  scheduledDeleteAt : Option String
deriving DecidableEq

/-- The fields of a FoundryLicense resource that generate_routes reads, each
optional field mirroring a dict .get whose default generate_routes applies at
the use site. -/
structure LicenseResource where
  name : String
  ns : String
  activeInstanceName : Option String
  switchMode : Option String
  statusActiveInstance : Option String
  gwParentRefName : Option String
  gwParentRefNs : Option String
  gwDnsTarget : Option String
  gwBaseDomain : Option String
deriving DecidableEq

/-- One entry of an HTTPRoute rule backendRefs list: the namespace key is set
only when a backend namespace is passed (httproute_template). -/
structure BackendRef where
  name : String
  port : Nat
  ns : Option String
deriving DecidableEq

/-- The HTTPRoute object built by httproute_template in
lib/foundry_lib/manifest_templates.py, flattened: metadata name and namespace,
metadata labels as an association list, spec.hostnames, the single parentRef
and the rule backendRefs. -/
structure HTTPRoute where
  metaName : String
  metaNs : String
  labels : List (String × String)
  hostnames : List String
  parentRefName : String
  parentRefNs : String
  backendRefs : List BackendRef
deriving DecidableEq

/-- httproute_template from lib/foundry_lib/manifest_templates.py. -/
def httproute_template (name namespaceName hostname gateway_name gateway_ns
    backend_service : String) (backend_ns : Option String) : HTTPRoute :=
  { metaName := "foundry-id-" ++ name
    metaNs := namespaceName
    labels := [("app", "foundry-vtt"), ("instance", name)]
    hostnames := [hostname]
    parentRefName := gateway_name
    parentRefNs := gateway_ns
    backendRefs := [{ name := backend_service
                      port := 80
                      ns := if optTruthy backend_ns then backend_ns else none }] }

/-- The DNSEndpoint object built by dnsendpoint_template in
lib/foundry_lib/manifest_templates.py, flattened. -/
structure DNSEndpoint where
  metaName : String
  metaNs : String
  dnsName : String
  recordTTL : Nat
  recordType : String
  targets : List String
deriving DecidableEq

/-- dnsendpoint_template from lib/foundry_lib/manifest_templates.py. -/
def dnsendpoint_template (name namespaceName hostname dns_target : String) :
    DNSEndpoint :=
  { metaName := "foundry-id-" ++ name
    metaNs := namespaceName
    dnsName := hostname
    recordTTL := 300
    recordType := "A"
    targets := [dns_target] }

/-- A manifest object the pipeline can write to its output directory. -/
inductive OutputObject where
  | httpRoute (r : HTTPRoute)
  | dnsEndpoint (d : DNSEndpoint)
deriving DecidableEq

/-- True exactly for DNS-binding (DNSEndpoint) outputs. -/
def OutputObject.isDns : OutputObject → Bool
  | .httpRoute _ => false
  | .dnsEndpoint _ => true

/-- The result of the switch-arbitration block of generate_routes (lines
39-68 of generate_route.py): the arbitrated active instance name, the
optional warning, and the list of hostnames passed to check_players (the
probe call record, in call order). -/
structure ArbResult where
  active : String
  warning : Option String
  probed : List String
deriving DecidableEq

/-- Lines 39-68 of generate_route.py: initialize the active name to the
desired name, and when a switch is requested (current and desired both
truthy and different) apply the switchMode logic: force falls through; block
probes the current holder when an admin key is available and denies on a
truthy probe error or a positive player count, otherwise allows; without an
admin key block denies with a no-credentials warning. The probe argument
maps the probed hostname to the stats dictionary check_players returns. -/
def arbitrate (current desired mode : String) (adminKey : Option String)
    (licenseNs : String) (probe : String → PlayerStats) : ArbResult :=
  if current != "" && desired != "" && current != desired then
    if mode == "block" then
      if optTruthy adminKey then
        let hostname := "foundry-" ++ current ++ "." ++ licenseNs ++ ".svc.cluster.local"
        let stats := probe hostname
        let players := stats.connectedPlayers
        if optTruthy stats.error then
          { active := current
            warning := some ("Switch to \x27" ++ desired ++ "\x27 blocked: Unable to verify player count on \x27"
              ++ current ++ "\x27 (" ++ stats.error.getD "" ++ ")")
            probed := [hostname] }
        else if players > 0 then
          { active := current
            warning := some ("Switch to \x27" ++ desired ++ "\x27 blocked: " ++ toString players
              ++ " players connected to \x27" ++ current ++ "\x27")
            probed := [hostname] }
        else
          { active := desired, warning := none, probed := [hostname] }
      else
        { active := current
          warning := some ("Switch to \x27" ++ desired
            ++ "\x27 blocked: No admin credentials available to check player count")
          probed := [] }
    else
      { active := desired, warning := none, probed := [] }
  else
    { active := desired, warning := none, probed := [] }

/-- The mutable state of the per-instance loop of generate_routes: the
running active name and warning, the registered-instance (name, state) pairs
and the written (filename, object) outputs, each appended in listing order. -/
structure LoopState where
  active : String
  warning : Option String
  registered : List (String × String)
  outputs : List (String × OutputObject)
deriving DecidableEq

/-- One iteration of the instance loop of generate_routes (lines 83-137):
skip instances whose licenseRef does not match; when the instance carries a
truthy scheduled-delete annotation and is the running active name, reassign
the active name to the current holder (empty if the current holder is this
same name) and overwrite the warning; then register the instance as active
(own backend service, route namespace) exactly when its name equals the
possibly reassigned active name, else standby (shared standby-page service in
the foundry-vtt namespace), and append the labelled HTTPRoute output. -/
def processInstance (licenseName targetNs baseDomain gatewayName gatewayNs
    currentActive : String) (st : LoopState) (inst : Instance) : LoopState :=
  if inst.licenseRef != some licenseName then st
  else
    let name := inst.name
    let scheduled := optTruthy inst.scheduledDeleteAt
    let activeWarn : String × Option String :=
      if scheduled && name == st.active then
        (if currentActive != name then currentActive else "",
         some ("Instance \x27" ++ name ++ "\x27 is scheduled for deletion and cannot be active"))
      else (st.active, st.warning)
    let active1 := activeWarn.1
    let hostname := name ++ "." ++ baseDomain
    let sbb : String × String × Option String :=
      if name == active1 then ("active", "foundry-" ++ name, none)
      else ("standby", "foundry-standby-page", some "foundry-vtt")
    let route := httproute_template name targetNs hostname gatewayName gatewayNs sbb.2.1 sbb.2.2
    let route := { route with labels := route.labels ++ [("license", licenseName)] }
    { active := active1
      warning := activeWarn.2
      registered := st.registered ++ [(name, sbb.1)]
      outputs := st.outputs ++ [("route-" ++ name ++ ".yaml", OutputObject.httpRoute route)] }

/-- The for-loop of generate_routes over the instance listing, in listing
order. -/
def routeLoop (licenseName targetNs baseDomain gatewayName gatewayNs
    currentActive : String) : LoopState → List Instance → LoopState
  | st, [] => st
  | st, inst :: rest =>
      routeLoop licenseName targetNs baseDomain gatewayName gatewayNs currentActive
        (processInstance licenseName targetNs baseDomain gatewayName gatewayNs
          currentActive st inst) rest

/-- The status dictionary generate_routes returns: activeInstance,
registeredInstances as (name, state) pairs, and the warning key present only
when the warning is truthy. -/
structure RouteStatus where
  activeInstance : String
  registeredInstances : List (String × String)
  warning : Option String
deriving DecidableEq

/-- The full observable result of one generate_routes call: the written
outputs, the returned status and the record of probed hostnames. -/
structure GenResult where
  outputs : List (String × OutputObject)
  status : RouteStatus
  probed : List String
deriving DecidableEq

/-- generate_routes from generate_route.py: read the License fields with
their dict-get defaults, run the switch arbitration (lines 39-68), then run
the instance loop (lines 83-137) seeded with the arbitrated active name and
warning, and assemble the returned status (lines 142-149). The instance
listing stands for the list_namespaced_custom_object result; the probe
stands for check_players. -/
def generate_routes (res : LicenseResource) (instances : List Instance)
    (adminKey : Option String) (probe : String → PlayerStats) : GenResult :=
  let licenseName := res.name
  let licenseNs := res.ns
  let desired := res.activeInstanceName.getD ""
  let mode := res.switchMode.getD "block"
  let current := res.statusActiveInstance.getD ""
  let targetNs := licenseNs
  let gatewayName := res.gwParentRefName.getD "default-gateway"
  let gatewayNs := res.gwParentRefNs.getD licenseNs
  let baseDomain := res.gwBaseDomain.getD "k8s.orb.local"
  let arb := arbitrate current desired mode adminKey licenseNs probe
  let init : LoopState := { active := arb.active, warning := arb.warning, registered := [], outputs := [] }
  let fin := routeLoop licenseName targetNs baseDomain gatewayName gatewayNs current init instances
  { outputs := fin.outputs
    status := { activeInstance := fin.active
                registeredInstances := fin.registered
                warning := if optTruthy fin.warning then fin.warning else none }
    probed := arb.probed }

/-- The result of one run of main() in
promises/foundry-license/configure-pipeline/scripts/main.py: the status it
writes back (with the step-3 activeInstanceStats key when present) and the
full record of probed hostnames across the run. -/
structure MainResult where
  status : RouteStatus
  activeInstanceStats : Option PlayerStats
  probed : List String
deriving DecidableEq

/-- The happy path of main() from main.py: run generate_routes, then (step
3) when the resulting activeInstance and the admin key are both truthy call
check_players once more against the active instance and attach the stats to
the status. validate_license and the pipeline file I/O mutate nothing this
result depends on and are omitted. -/
def main_run (res : LicenseResource) (instances : List Instance)
    (adminKey : Option String) (probe : String → PlayerStats) : MainResult :=
  let g := generate_routes res instances adminKey probe
  let activeName := g.status.activeInstance
  if activeName != "" && optTruthy adminKey then
    let hostname := "foundry-" ++ activeName ++ "." ++ res.ns ++ ".svc.cluster.local"
    { status := g.status, activeInstanceStats := some (probe hostname), probed := g.probed ++ [hostname] }
  else
    { status := g.status, activeInstanceStats := none, probed := g.probed }

/-- The names of the instances in a listing that reference the given license
and carry a truthy scheduled-delete annotation: the pending-deletion set as
generate_routes sees it. -/
def pendingMatchedNames (licenseName : String) (instances : List Instance) : List String :=
  (instances.filter (fun i => i.licenseRef == some licenseName && optTruthy i.scheduledDeleteAt)).map Instance.name

/-- The (filename, object) pair generate_routes writes for a registered
(name, state) pair: filename route-name.yaml, hostname name.baseDomain, the
own service of the instance in the route namespace when active, the shared
standby-page service in the foundry-vtt namespace otherwise, and the license
label appended. -/
def expectedRoutePair (licenseName targetNs baseDomain gatewayName gatewayNs : String)
    (p : String × String) : String × OutputObject :=
  let backend : String × Option String :=
    if p.2 == "active" then ("foundry-" ++ p.1, none)
    else ("foundry-standby-page", some "foundry-vtt")
  let route := httproute_template p.1 targetNs (p.1 ++ "." ++ baseDomain)
    gatewayName gatewayNs backend.1 backend.2
  ("route-" ++ p.1 ++ ".yaml",
   OutputObject.httpRoute { route with labels := route.labels ++ [("license", licenseName)] })

/-- One operation of the instance pipeline against the secret store
(generate_manifests in
promises/foundry-instance/configure-pipeline/scripts/generate_manifests.py):
the get_existing_password read with its outcome, a create_namespaced_secret
attempt with whether it hit a 409 conflict, or a patch_namespaced_secret. -/
inductive SecretOp where
  | readSecret (found : Bool)
  | createSecret (value : String) (conflict : Bool)
  | patchSecret (value : String)
deriving DecidableEq

/-- The secret-relevant outcome of one generate_manifests run: the
admin_password the run settles on, the passwordPendingNotification status
update, and the trace of store operations it performed, in order. -/
structure ResolveOutcome where
  adminPassword : String
  passwordPendingNotification : Bool
  ops : List SecretOp
deriving DecidableEq

/-- The secret logic of generate_manifests (steps 1-3, lines 57-111): read
the existing password; reuse it when truthy and not regenerating; patch a
fresh value when truthy and regenerating; otherwise create a fresh value,
treating a 409 ApiException as success (no further store operation) and
re-raising any other ApiException status. The nondeterministic
generate_random_password value is the fresh parameter; createError is the
ApiException status the create attempt raises, if any. -/
def resolve_admin_secret (existing : Option String) (regenerate : Bool) (fresh : String)
    (createError : Option Nat) : Except Nat ResolveOutcome :=
  let found := optTruthy existing
  if found && !regenerate then
    .ok { adminPassword := existing.getD ""
          passwordPendingNotification := false
          ops := [.readSecret found] }
  else if found && regenerate then
    .ok { adminPassword := fresh
          passwordPendingNotification := true
          ops := [.readSecret found, .patchSecret fresh] }
  else
    match createError with
    | none =>
        .ok { adminPassword := fresh
              passwordPendingNotification := true
              ops := [.readSecret found, .createSecret fresh false] }
    | some code =>
        if code == 409 then
          .ok { adminPassword := fresh
                passwordPendingNotification := true
                ops := [.readSecret found, .createSecret fresh true] }
        else .error code

deriving instance DecidableEq for Except

/-- The store side of create_namespaced_secret: creation fails with 409 when
a value already exists, else installs the value. -/
def storeCreate (store : Option String) (v : String) : Option String × Option Nat :=
  match store with
  | some _ => (store, some 409)
  | none => (some v, none)

/-- The two-caller secret race of the spec: both callers read while the
secret is absent, then the store serializes their create attempts; the first
create wins and the second receives the 409 conflict. -/
structure RaceOutcome where
  finalStore : Option String
  r1 : Except Nat ResolveOutcome
  r2 : Except Nat ResolveOutcome
deriving DecidableEq

/-- Run the two-caller race: caller 1 and caller 2 both observe the secret
absent, caller 1 creates first with fresh1, caller 2 then attempts creation
with fresh2. -/
def race_both_create (fresh1 fresh2 : String) : RaceOutcome :=
  let s0 : Option String := none
  let c1 := storeCreate s0 fresh1
  let c2 := storeCreate c1.1 fresh2
  { finalStore := c2.1
    r1 := resolve_admin_secret s0 false fresh1 c1.2
    r2 := resolve_admin_secret s0 false fresh2 c2.2 }

/-- The License of the DNSEndpoint test of the repository
(tests/test_foundry_license_pipeline.py, test_public_ip_creates_dns_endpoint):
gateway parentRef gw/ns; the publicIP field the test sets is not among the
fields generate_routes reads. -/
def dnsTestLicense : LicenseResource :=
  { name := "test-license", ns := "default"
    activeInstanceName := some "instance-2", switchMode := some "block"
    statusActiveInstance := some "instance-1"
    gwParentRefName := some "gw", gwParentRefNs := some "ns"
    gwDnsTarget := none, gwBaseDomain := none }

/-- The two instances of the DNSEndpoint test of the repository. -/
def dnsTestInstances : List Instance :=
  [{ name := "instance-1", licenseRef := some "test-license", scheduledDeleteAt := none },
   { name := "instance-2", licenseRef := some "test-license", scheduledDeleteAt := none }]

/-- A License requesting a force switch from current holder a to desired
holder b. -/
def bothPendingLicense : LicenseResource :=
  { name := "lic", ns := "ns"
    activeInstanceName := some "b", switchMode := some "force"
    statusActiveInstance := some "a"
    gwParentRefName := none, gwParentRefNs := none
    gwDnsTarget := none, gwBaseDomain := none }

/-- Instances a and b, both scheduled for deletion, listed a first. -/
def bothPendingInstances : List Instance :=
  [{ name := "a", licenseRef := some "lic", scheduledDeleteAt := some "2026-01-01T00:00:00Z" },
   { name := "b", licenseRef := some "lic", scheduledDeleteAt := some "2026-01-01T00:00:00Z" }]

/-- A License requesting a force switch from current holder a to desired
holder b. -/
def pendingDesiredLicense : LicenseResource :=
  { name := "lic", ns := "ns"
    activeInstanceName := some "b", switchMode := some "force"
    statusActiveInstance := some "a"
    gwParentRefName := none, gwParentRefNs := none
    gwDnsTarget := none, gwBaseDomain := none }

/-- Instance a (not pending) listed before instance b (pending deletion). -/
def pendingDesiredInstances : List Instance :=
  [{ name := "a", licenseRef := some "lic", scheduledDeleteAt := none },
   { name := "b", licenseRef := some "lic", scheduledDeleteAt := some "2026-01-01T00:00:00Z" }]

/-- A License requesting a block-mode switch from current holder a to desired
holder b. -/
def secondProbeLicense : LicenseResource :=
  { name := "lic", ns := "ns"
    activeInstanceName := some "b", switchMode := some "block"
    statusActiveInstance := some "a"
    gwParentRefName := none, gwParentRefNs := none
    gwDnsTarget := none, gwBaseDomain := none }

/-- A single bound instance b, not pending deletion. -/
def secondProbeInstances : List Instance :=
  [{ name := "b", licenseRef := some "lic", scheduledDeleteAt := none }]

/-- A probe whose stats report zero connected players and no error. -/
def probeZero : String → PlayerStats :=
  fun _ => { connectedPlayers := 0, worldActive := none, error := none }

/-- A non-matching instance leaves the loop state unchanged. -/
theorem processInstance_skip (L T B G Gns C : String) (st : LoopState) (inst : Instance)
    (hm : inst.licenseRef ≠ some L) :
    processInstance L T B G Gns C st inst = st := by
  simp [processInstance, hm]

/-- A matching instance appends exactly one registered pair, carrying its own
name. -/
theorem processInstance_registered (L T B G Gns C : String) (st : LoopState) (inst : Instance)
    (hm : inst.licenseRef = some L) :
    ∃ s, (processInstance L T B G Gns C st inst).registered = st.registered ++ [(inst.name, s)] := by
  unfold processInstance
  rw [if_neg (by simp [hm])]
  exact ⟨_, rfl⟩

/-- A matching instance appends exactly one output, named route-name.yaml. -/
theorem processInstance_outputs (L T B G Gns C : String) (st : LoopState) (inst : Instance)
    (hm : inst.licenseRef = some L) :
    ∃ o, (processInstance L T B G Gns C st inst).outputs
      = st.outputs ++ [("route-" ++ inst.name ++ ".yaml", o)] := by
  unfold processInstance
  rw [if_neg (by simp [hm])]
  exact ⟨_, rfl⟩

/-- When the deletion override does not fire (unscheduled instance or name
different from the running active name) the running active name and warning
are unchanged. -/
theorem processInstance_nofire (L T B G Gns C : String) (st : LoopState) (inst : Instance)
    (h : optTruthy inst.scheduledDeleteAt = false ∨ inst.name ≠ st.active) :
    (processInstance L T B G Gns C st inst).active = st.active
  ∧ (processInstance L T B G Gns C st inst).warning = st.warning := by
  unfold processInstance
  by_cases hm : inst.licenseRef = some L
  · rw [if_neg (by simp [hm])]
    have hc : ¬ ((optTruthy inst.scheduledDeleteAt && inst.name == st.active) = true) := by
      rcases h with h | h
      · simp [h]
      · simp [h]
    constructor
    · show (if (optTruthy inst.scheduledDeleteAt && inst.name == st.active) = true
          then _ else (st.active, st.warning)).1 = st.active
      rw [if_neg hc]
    · show (if (optTruthy inst.scheduledDeleteAt && inst.name == st.active) = true
          then _ else (st.active, st.warning)).2 = st.warning
      rw [if_neg hc]
  · rw [if_pos (by simp [hm])]
    exact ⟨rfl, rfl⟩

/-- When the deletion override fires (matching scheduled instance whose name
is the running active name), the active name is reassigned to the current
holder when that differs from the instance, else to empty, and the warning is
overwritten with the scheduled-for-deletion message. -/
theorem processInstance_fire (L T B G Gns C : String) (st : LoopState) (inst : Instance)
    (hm : inst.licenseRef = some L)
    (hs : optTruthy inst.scheduledDeleteAt = true)
    (ha : inst.name = st.active) :
    (processInstance L T B G Gns C st inst).active
      = (if C ≠ inst.name then C else "")
  ∧ (processInstance L T B G Gns C st inst).warning
      = some ("Instance \x27" ++ inst.name ++ "\x27 is scheduled for deletion and cannot be active") := by
  unfold processInstance
  rw [if_neg (by simp [hm])]
  have hc : (optTruthy inst.scheduledDeleteAt && inst.name == st.active) = true := by
    simp [hs, ha]
  constructor
  · show (if (optTruthy inst.scheduledDeleteAt && inst.name == st.active) = true
        then (if C != inst.name then C else "", _) else _).1 = _
    rw [if_pos hc]
    show (if C != inst.name then C else "") = _
    by_cases hcn : C = inst.name
    · rw [if_neg (by simp [hcn]), if_neg (by simp [hcn])]
    · rw [if_pos (by simp [hcn]), if_pos hcn]
  · show (if (optTruthy inst.scheduledDeleteAt && inst.name == st.active) = true
        then (_, some ("Instance \x27" ++ inst.name ++ "\x27 is scheduled for deletion and cannot be active"))
        else _).2 = _
    rw [if_pos hc]

/-- Unfolding one loop step. -/
theorem routeLoop_cons (L T B G Gns C : String) (st : LoopState) (inst : Instance)
    (rest : List Instance) :
    routeLoop L T B G Gns C st (inst :: rest)
      = routeLoop L T B G Gns C (processInstance L T B G Gns C st inst) rest := rfl

/-- The pending-deletion name set of a cons listing. -/
theorem pendingMatchedNames_cons (L : String) (i : Instance) (l : List Instance) :
    pendingMatchedNames L (i :: l)
      = (if (i.licenseRef == some L && optTruthy i.scheduledDeleteAt) = true
          then [i.name] else [])
        ++ pendingMatchedNames L l := by
  simp only [pendingMatchedNames, List.filter_cons]
  split <;> simp_all

/-- Registered pairs persist across the rest of the loop. -/
theorem routeLoop_mem_registered (L T B G Gns C : String) (insts : List Instance)
    (st : LoopState) (p : String × String) (hp : p ∈ st.registered) :
    p ∈ (routeLoop L T B G Gns C st insts).registered := by
  induction insts generalizing st with
  | nil => exact hp
  | cons inst rest ih =>
      rw [routeLoop_cons]
      apply ih
      by_cases hm : inst.licenseRef = some L
      · obtain ⟨s, hs⟩ := processInstance_registered L T B G Gns C st inst hm
        rw [hs]
        exact List.mem_append_left _ hp
      · rw [processInstance_skip L T B G Gns C st inst hm]
        exact hp

/-- The registered names are the names of the matching instances, in listing
order. -/
theorem routeLoop_registered_names (L T B G Gns C : String) (insts : List Instance)
    (st : LoopState) :
    (routeLoop L T B G Gns C st insts).registered.map Prod.fst
      = st.registered.map Prod.fst
        ++ (insts.filter (fun i => i.licenseRef == some L)).map Instance.name := by
  induction insts generalizing st with
  | nil => simp [routeLoop]
  | cons inst rest ih =>
      rw [routeLoop_cons, ih]
      by_cases hm : inst.licenseRef = some L
      · obtain ⟨s, hs⟩ := processInstance_registered L T B G Gns C st inst hm
        rw [hs]
        simp [List.filter_cons, hm]
      · rw [processInstance_skip L T B G Gns C st inst hm]
        have : (inst.licenseRef == some L) = false := by
          simpa using hm
        simp [List.filter_cons, this]

/-- The output file names are route-name.yaml over the names of the matching
instances, in listing order. -/
theorem routeLoop_output_names (L T B G Gns C : String) (insts : List Instance)
    (st : LoopState) :
    (routeLoop L T B G Gns C st insts).outputs.map Prod.fst
      = st.outputs.map Prod.fst
        ++ (insts.filter (fun i => i.licenseRef == some L)).map
            (fun i => "route-" ++ i.name ++ ".yaml") := by
  induction insts generalizing st with
  | nil => simp [routeLoop]
  | cons inst rest ih =>
      rw [routeLoop_cons, ih]
      by_cases hm : inst.licenseRef = some L
      · obtain ⟨o, ho⟩ := processInstance_outputs L T B G Gns C st inst hm
        rw [ho]
        simp [List.filter_cons, hm]
      · rw [processInstance_skip L T B G Gns C st inst hm]
        have : (inst.licenseRef == some L) = false := by
          simpa using hm
        simp [List.filter_cons, this]

/-- A matching scheduled head instance is in the pending-deletion name set. -/
theorem mem_pendingMatchedNames_head (L : String) (i : Instance) (l : List Instance)
    (hm : i.licenseRef = some L) (hs : optTruthy i.scheduledDeleteAt = true) :
    i.name ∈ pendingMatchedNames L (i :: l) := by
  rw [pendingMatchedNames_cons, if_pos (by simp [hm, hs])]
  exact List.mem_append_left _ (List.mem_singleton_self _)

/-- The pending-deletion name set of the tail embeds into that of the cons. -/
theorem mem_pendingMatchedNames_tail (L : String) (i : Instance) (l : List Instance)
    (x : String) (hx : x ∈ pendingMatchedNames L l) :
    x ∈ pendingMatchedNames L (i :: l) := by
  rw [pendingMatchedNames_cons]
  exact List.mem_append_right _ hx

/-- When the deletion override does not fire at this instance, the running
active name and warning pass through unchanged. -/
theorem processInstance_keeps (L T B G Gns C : String) (st : LoopState) (inst : Instance)
    (h : ¬(inst.licenseRef = some L ∧ optTruthy inst.scheduledDeleteAt = true
      ∧ inst.name = st.active)) :
    (processInstance L T B G Gns C st inst).active = st.active
  ∧ (processInstance L T B G Gns C st inst).warning = st.warning := by
  by_cases hm : inst.licenseRef = some L
  · by_cases hs : optTruthy inst.scheduledDeleteAt = true
    · have ha : inst.name ≠ st.active := fun ha => h ⟨hm, hs, ha⟩
      exact processInstance_nofire L T B G Gns C st inst (Or.inr ha)
    · exact processInstance_nofire L T B G Gns C st inst (Or.inl (by simpa using hs))
  · rw [processInstance_skip L T B G Gns C st inst hm]
    exact ⟨rfl, rfl⟩

/-- Across a loop whose pending-deletion set avoids the current holder, the
final active name is the seed active name or the current holder: every
deletion override rewrites the running name to the current holder. -/
theorem routeLoop_active_or_current (L T B G Gns C : String) (insts : List Instance)
    (st : LoopState) (hcur : C ∉ pendingMatchedNames L insts) :
    (routeLoop L T B G Gns C st insts).active = st.active
  ∨ (routeLoop L T B G Gns C st insts).active = C := by
  induction insts generalizing st with
  | nil => exact Or.inl rfl
  | cons inst rest ih =>
      have hcur' : C ∉ pendingMatchedNames L rest := fun hmem =>
        hcur (mem_pendingMatchedNames_tail L inst rest C hmem)
      rw [routeLoop_cons]
      by_cases hfire : inst.licenseRef = some L ∧ optTruthy inst.scheduledDeleteAt = true
          ∧ inst.name = st.active
      · have hCn : C ≠ inst.name := by
          intro heq
          apply hcur
          rw [heq]
          exact mem_pendingMatchedNames_head L inst rest hfire.1 hfire.2.1
        have hfa := (processInstance_fire L T B G Gns C st inst hfire.1 hfire.2.1 hfire.2.2).1
        rw [if_pos hCn] at hfa
        rcases ih (processInstance L T B G Gns C st inst) hcur' with h | h
        · exact Or.inr (h.trans hfa)
        · exact Or.inr h
      · have hk := (processInstance_keeps L T B G Gns C st inst hfire).1
        rcases ih (processInstance L T B G Gns C st inst) hcur' with h | h
        · exact Or.inl (h.trans hk)
        · exact Or.inr h

/-- Across a loop whose pending-deletion set avoids the current holder but
holds the seed active name, the final active name is the current holder: the
pending seed is overridden when its instance is reached. -/
theorem routeLoop_active_pending (L T B G Gns C : String) (insts : List Instance)
    (st : LoopState) (hcur : C ∉ pendingMatchedNames L insts)
    (hst : st.active ∈ pendingMatchedNames L insts) :
    (routeLoop L T B G Gns C st insts).active = C := by
  induction insts generalizing st with
  | nil => simp [pendingMatchedNames] at hst
  | cons inst rest ih =>
      have hcur' : C ∉ pendingMatchedNames L rest := fun hmem =>
        hcur (mem_pendingMatchedNames_tail L inst rest C hmem)
      rw [routeLoop_cons]
      by_cases hfire : inst.licenseRef = some L ∧ optTruthy inst.scheduledDeleteAt = true
          ∧ inst.name = st.active
      · have hCn : C ≠ inst.name := by
          intro heq
          apply hcur
          rw [heq]
          exact mem_pendingMatchedNames_head L inst rest hfire.1 hfire.2.1
        have hfa := (processInstance_fire L T B G Gns C st inst hfire.1 hfire.2.1 hfire.2.2).1
        rw [if_pos hCn] at hfa
        rcases routeLoop_active_or_current L T B G Gns C rest
            (processInstance L T B G Gns C st inst) hcur' with h | h
        · exact h.trans hfa
        · exact h
      · have hk := (processInstance_keeps L T B G Gns C st inst hfire).1
        have hst' : st.active ∈ pendingMatchedNames L rest := by
          rw [pendingMatchedNames_cons] at hst
          rcases List.mem_append.mp hst with h | h
          · by_cases hc : (inst.licenseRef == some L && optTruthy inst.scheduledDeleteAt) = true
            · rw [if_pos hc] at h
              rw [List.mem_singleton] at h
              have hc' : inst.licenseRef = some L ∧ optTruthy inst.scheduledDeleteAt = true := by
                simpa using hc
              exact absurd ⟨hc'.1, hc'.2, h.symm⟩ hfire
            · rw [if_neg hc] at h
              exact absurd h (List.not_mem_nil _)
          · exact h
        apply ih (processInstance L T B G Gns C st inst) hcur'
        rw [hk]
        exact hst'

/-- When no matching instance is pending deletion, the loop never reassigns
the active name. -/
theorem routeLoop_no_pending_active (L T B G Gns C : String) (insts : List Instance)
    (st : LoopState) (hno : pendingMatchedNames L insts = []) :
    (routeLoop L T B G Gns C st insts).active = st.active := by
  induction insts generalizing st with
  | nil => rfl
  | cons inst rest ih =>
      rw [pendingMatchedNames_cons] at hno
      obtain ⟨he1, he2⟩ := List.append_eq_nil.mp hno
      have hfire : ¬(inst.licenseRef = some L ∧ optTruthy inst.scheduledDeleteAt = true
          ∧ inst.name = st.active) := by
        rintro ⟨hm, hs, -⟩
        rw [if_pos (by simp [hm, hs])] at he1
        exact absurd he1 (by simp)
      rw [routeLoop_cons]
      have hk := (processInstance_keeps L T B G Gns C st inst hfire).1
      exact (ih (processInstance L T B G Gns C st inst) he2).trans hk

/-- First component of a conditional pair. -/
theorem ite_fst {a b : Type} (c : Prop) [Decidable c] (x y : a × b) :
    (if c then x else y).1 = if c then x.1 else y.1 := by
  split <;> rfl

/-- Second component of a conditional pair. -/
theorem ite_snd {a b : Type} (c : Prop) [Decidable c] (x y : a × b) :
    (if c then x else y).2 = if c then x.2 else y.2 := by
  split <;> rfl

/-- A matching instance registers its name with state active exactly when its
name equals the post-override running active name. -/
theorem processInstance_registered_state (L T B G Gns C : String) (st : LoopState)
    (inst : Instance) (hm : inst.licenseRef = some L) :
    (processInstance L T B G Gns C st inst).registered
      = st.registered ++ [(inst.name,
          if inst.name = (processInstance L T B G Gns C st inst).active then "active"
          else "standby")] := by
  unfold processInstance
  rw [if_neg (by simp [hm])]
  simp only [ite_fst, beq_iff_eq]

/-- A matching instance writes exactly the expected route pair for its
registered (name, state) entry. -/
theorem processInstance_output_pair (L T B G Gns C : String) (st : LoopState)
    (inst : Instance) (hm : inst.licenseRef = some L) :
    (processInstance L T B G Gns C st inst).outputs
      = st.outputs ++ [expectedRoutePair L T B G Gns
          (inst.name,
           if inst.name = (processInstance L T B G Gns C st inst).active then "active"
           else "standby")] := by
  unfold processInstance expectedRoutePair
  rw [if_neg (by simp [hm])]
  simp only [ite_fst, ite_snd, beq_iff_eq]
  split <;> simp

/-- Every registered pair has its expected route pair among the outputs. -/
theorem routeLoop_registered_outputs (L T B G Gns C : String) (insts : List Instance)
    (st : LoopState)
    (hp : ∀ p ∈ st.registered, expectedRoutePair L T B G Gns p ∈ st.outputs) :
    ∀ p ∈ (routeLoop L T B G Gns C st insts).registered,
      expectedRoutePair L T B G Gns p ∈ (routeLoop L T B G Gns C st insts).outputs := by
  induction insts generalizing st with
  | nil => exact hp
  | cons inst rest ih =>
      rw [routeLoop_cons]
      apply ih
      intro p hpmem
      by_cases hm : inst.licenseRef = some L
      · rw [processInstance_registered_state L T B G Gns C st inst hm] at hpmem
        rw [processInstance_output_pair L T B G Gns C st inst hm]
        rcases List.mem_append.mp hpmem with h | h
        · exact List.mem_append_left _ (hp p h)
        · rw [List.mem_singleton] at h
          subst h
          exact List.mem_append_right _ (List.mem_singleton.mpr rfl)
      · rw [processInstance_skip L T B G Gns C st inst hm] at hpmem ⊢
        exact hp p hpmem

/-- A matching pending-deletion instance with a non-empty name is always
registered standby. -/
theorem routeLoop_pending_standby (L T B G Gns C : String) (insts : List Instance)
    (st : LoopState) :
    ∀ i ∈ insts, i.name ≠ "" → i.licenseRef = some L →
      optTruthy i.scheduledDeleteAt = true →
      (i.name, "standby") ∈ (routeLoop L T B G Gns C st insts).registered := by
  induction insts generalizing st with
  | nil => intro i hi; cases hi
  | cons inst rest ih =>
      intro i hi hne hm hs
      rw [routeLoop_cons]
      rcases List.mem_cons.mp hi with heq | hi'
      · subst heq
        have hnact : i.name ≠ (processInstance L T B G Gns C st i).active := by
          by_cases hfa : i.name = st.active
          · have hf := (processInstance_fire L T B G Gns C st i hm hs hfa).1
            rw [hf]
            by_cases hcn : C = i.name
            · rw [if_neg (by simp [hcn])]
              exact hne
            · rw [if_pos hcn]
              exact fun h => hcn h.symm
          · rw [(processInstance_nofire L T B G Gns C st i (Or.inr hfa)).1]
            exact hfa
        apply routeLoop_mem_registered
        rw [processInstance_registered_state L T B G Gns C st i hm]
        apply List.mem_append_right
        rw [if_neg hnact]
        exact List.mem_singleton.mpr rfl
      · exact ih (processInstance L T B G Gns C st inst) i hi' hne hm hs

/-- The loop invariant behind the single-active-holder property: with
pairwise distinct instance names, when at most one seed pair is active and
every active seed pair carries the running active name and a name absent from
the remaining listing, the final registered list has at most one active pair
and every active pair carries the final active name. -/
theorem routeLoop_active_unique (L T B G Gns C : String) (insts : List Instance)
    (st : LoopState)
    (hnd : (insts.map Instance.name).Nodup)
    (hcount : st.registered.countP (fun p => p.2 == "active") ≤ 1)
    (hreg : ∀ p ∈ st.registered, p.2 = "active" →
      p.1 = st.active ∧ p.1 ∉ insts.map Instance.name) :
    ((routeLoop L T B G Gns C st insts).registered.countP (fun p => p.2 == "active") ≤ 1)
  ∧ ∀ p ∈ (routeLoop L T B G Gns C st insts).registered, p.2 = "active" →
      p.1 = (routeLoop L T B G Gns C st insts).active := by
  induction insts generalizing st with
  | nil => exact ⟨hcount, fun p hp ha => (hreg p hp ha).1⟩
  | cons inst rest ih =>
      rw [routeLoop_cons]
      rw [List.map_cons, List.nodup_cons] at hnd
      by_cases hm : inst.licenseRef = some L
      · have hrs := processInstance_registered_state L T B G Gns C st inst hm
        by_cases hact : inst.name = (processInstance L T B G Gns C st inst).active
        · -- the new entry is active: the earlier entries cannot be
          have hst_eq : inst.name = st.active := by
            by_cases hfire : inst.licenseRef = some L
                ∧ optTruthy inst.scheduledDeleteAt = true ∧ inst.name = st.active
            · exact hfire.2.2
            · exact hact.trans (processInstance_keeps L T B G Gns C st inst hfire).1
          have hold : ∀ p ∈ st.registered, ¬(p.2 = "active") := by
            intro p hp ha
            have h2 := hreg p hp ha
            apply h2.2
            rw [List.map_cons, h2.1, ← hst_eq]
            exact List.mem_cons_self _ _
          apply ih (processInstance L T B G Gns C st inst) hnd.2
          · rw [hrs, List.countP_append]
            have h0 : st.registered.countP (fun p => p.2 == "active") = 0 :=
              List.countP_eq_zero.mpr (by
                intro p hp
                simpa using hold p hp)
            rw [h0, if_pos hact]
            simp
          · intro p hp hpa
            rw [hrs] at hp
            rcases List.mem_append.mp hp with h | h
            · exact absurd hpa (hold p h)
            · rw [List.mem_singleton] at h
              subst h
              exact ⟨hact, hnd.1⟩
        · -- the new entry is standby
          by_cases hfire : inst.licenseRef = some L
              ∧ optTruthy inst.scheduledDeleteAt = true ∧ inst.name = st.active
          · -- with the override fired, no earlier entry can be active either
            have hold : ∀ p ∈ st.registered, ¬(p.2 = "active") := by
              intro p hp ha
              have h2 := hreg p hp ha
              apply h2.2
              rw [List.map_cons, h2.1, ← hfire.2.2]
              exact List.mem_cons_self _ _
            apply ih (processInstance L T B G Gns C st inst) hnd.2
            · rw [hrs, List.countP_append]
              have h0 : st.registered.countP (fun p => p.2 == "active") = 0 :=
                List.countP_eq_zero.mpr (by
                  intro p hp
                  simpa using hold p hp)
              rw [h0, if_neg hact]
              simp
            · intro p hp hpa
              rw [hrs] at hp
              rcases List.mem_append.mp hp with h | h
              · exact absurd hpa (hold p h)
              · rw [List.mem_singleton] at h
                subst h
                rw [if_neg hact] at hpa
                exact absurd hpa (by simp)
          · have hk := (processInstance_keeps L T B G Gns C st inst hfire).1
            apply ih (processInstance L T B G Gns C st inst) hnd.2
            · rw [hrs, List.countP_append, if_neg hact]
              simpa using hcount
            · intro p hp hpa
              rw [hrs] at hp
              rcases List.mem_append.mp hp with h | h
              · have h2 := hreg p h hpa
                refine ⟨h2.1.trans hk.symm, fun hmem => h2.2 ?_⟩
                rw [List.map_cons]
                exact List.mem_cons_of_mem _ hmem
              · rw [List.mem_singleton] at h
                subst h
                rw [if_neg hact] at hpa
                exact absurd hpa (by simp)
      · rw [processInstance_skip L T B G Gns C st inst hm]
        apply ih st hnd.2 hcount
        intro p hp hpa
        have h2 := hreg p hp hpa
        refine ⟨h2.1, fun hmem => h2.2 ?_⟩
        rw [List.map_cons]
        exact List.mem_cons_of_mem _ hmem

/-- When no matching instance is pending deletion, a registered pair is
active exactly when it carries the final active name. -/
theorem routeLoop_no_pending_iff (L T B G Gns C : String) (insts : List Instance)
    (st : LoopState) (hno : pendingMatchedNames L insts = [])
    (hreg : ∀ p ∈ st.registered, (p.2 = "active" ↔ p.1 = st.active)) :
    ∀ p ∈ (routeLoop L T B G Gns C st insts).registered,
      (p.2 = "active" ↔ p.1 = (routeLoop L T B G Gns C st insts).active) := by
  induction insts generalizing st with
  | nil => exact hreg
  | cons inst rest ih =>
      rw [pendingMatchedNames_cons] at hno
      obtain ⟨he1, he2⟩ := List.append_eq_nil.mp hno
      have hfire : ¬(inst.licenseRef = some L ∧ optTruthy inst.scheduledDeleteAt = true
          ∧ inst.name = st.active) := by
        rintro ⟨hm, hs, -⟩
        rw [if_pos (by simp [hm, hs])] at he1
        exact absurd he1 (by simp)
      have hk := (processInstance_keeps L T B G Gns C st inst hfire).1
      rw [routeLoop_cons]
      apply ih _ he2
      intro p hp
      by_cases hm : inst.licenseRef = some L
      · rw [processInstance_registered_state L T B G Gns C st inst hm] at hp
        rw [hk]
        rcases List.mem_append.mp hp with h | h
        · exact hreg p h
        · rw [List.mem_singleton] at h
          subst h
          by_cases hc : inst.name = (processInstance L T B G Gns C st inst).active
          · rw [if_pos hc]
            rw [hk] at hc
            exact iff_of_true rfl hc
          · rw [if_neg hc]
            rw [hk] at hc
            exact iff_of_false (by simp) hc
      · rw [processInstance_skip L T B G Gns C st inst hm] at hp ⊢
        exact hreg p hp

/-- Evaluation of the block-mode switch branch of the arbitration: with a
requested switch and a truthy admin key, the probe of the current holder
decides between the error denial, the players denial and the allowance. -/
theorem arbitrate_block_eval (current desired key licenseNs : String)
    (probe : String → PlayerStats)
    (h1 : current ≠ "") (h2 : desired ≠ "") (h3 : current ≠ desired) (hk : key ≠ "") :
    arbitrate current desired "block" (some key) licenseNs probe
      = (if optTruthy (probe ("foundry-" ++ current ++ "." ++ licenseNs
            ++ ".svc.cluster.local")).error = true then
           { active := current
             warning := some ("Switch to \x27" ++ desired
               ++ "\x27 blocked: Unable to verify player count on \x27"
               ++ current ++ "\x27 (" ++ (probe ("foundry-" ++ current ++ "." ++ licenseNs
                 ++ ".svc.cluster.local")).error.getD "" ++ ")")
             probed := ["foundry-" ++ current ++ "." ++ licenseNs ++ ".svc.cluster.local"] }
         else if (probe ("foundry-" ++ current ++ "." ++ licenseNs
             ++ ".svc.cluster.local")).connectedPlayers > 0 then
           { active := current
             warning := some ("Switch to \x27" ++ desired ++ "\x27 blocked: "
               ++ toString (probe ("foundry-" ++ current ++ "." ++ licenseNs
                 ++ ".svc.cluster.local")).connectedPlayers
               ++ " players connected to \x27" ++ current ++ "\x27")
             probed := ["foundry-" ++ current ++ "." ++ licenseNs ++ ".svc.cluster.local"] }
         else
           { active := desired, warning := none
             probed := ["foundry-" ++ current ++ "." ++ licenseNs ++ ".svc.cluster.local"] }) := by
  unfold arbitrate
  rw [if_pos (by simp [h1, h2, h3]), if_pos (by decide),
    if_pos (by simp [optTruthy, hk])]

/-- C1: for every License resource, every listing of bound Instances with
pairwise distinct names (as a Kubernetes namespace guarantees of a
list_namespaced_custom_object result), every admin key and every probe
outcome, at most one entry of the status registeredInstances carries state
active. -/
theorem c1_at_most_one_active (res : LicenseResource) (instances : List Instance)
    (adminKey : Option String) (probe : String → PlayerStats)
    (hnd : (instances.map Instance.name).Nodup) :
    (generate_routes res instances adminKey probe).status.registeredInstances.countP
      (fun p => p.2 == "active") ≤ 1 :=
  (routeLoop_active_unique res.name res.ns (res.gwBaseDomain.getD "k8s.orb.local")
      (res.gwParentRefName.getD "default-gateway") (res.gwParentRefNs.getD res.ns)
      (res.statusActiveInstance.getD "") instances
      { active := (arbitrate (res.statusActiveInstance.getD "")
          (res.activeInstanceName.getD "") (res.switchMode.getD "block") adminKey res.ns
          probe).active
        warning := (arbitrate (res.statusActiveInstance.getD "")
          (res.activeInstanceName.getD "") (res.switchMode.getD "block") adminKey res.ns
          probe).warning
        registered := []
        outputs := [] }
      hnd (by simp) (by simp)).1

/-- C1 witness: a concrete two-instance reconciliation with distinct names. -/
theorem c1_at_most_one_active_witness :
    ((secondProbeInstances ++ [(⟨"a", some "lic", none⟩ : Instance)]).map Instance.name).Nodup
  ∧ (generate_routes secondProbeLicense
      (secondProbeInstances ++ [(⟨"a", some "lic", none⟩ : Instance)])
      (some "k") probeZero).status.registeredInstances.countP
      (fun p => p.2 == "active") ≤ 1 :=
  ⟨by decide, c1_at_most_one_active _ _ _ _ (by decide)⟩

/-- C4: on a requested switch under block policy with an admin key, the
current holder is probed (exactly the internal hostname of the current holder is
queried); a truthy probe error denies the switch with a warning carrying the
current holder and the error; a positive player count denies with a warning
carrying the count and the current holder; a zero count allows with no
warning. -/
theorem c4_block_probe (current desired key licenseNs : String)
    (probe : String → PlayerStats)
    (h1 : current ≠ "") (h2 : desired ≠ "") (h3 : current ≠ desired) (hk : key ≠ "") :
    ((arbitrate current desired "block" (some key) licenseNs probe).probed
      = ["foundry-" ++ current ++ "." ++ licenseNs ++ ".svc.cluster.local"])
  ∧ (optTruthy (probe ("foundry-" ++ current ++ "." ++ licenseNs
        ++ ".svc.cluster.local")).error = true →
      (arbitrate current desired "block" (some key) licenseNs probe).active = current
    ∧ (arbitrate current desired "block" (some key) licenseNs probe).warning
        = some ("Switch to \x27" ++ desired
          ++ "\x27 blocked: Unable to verify player count on \x27" ++ current
          ++ "\x27 (" ++ (probe ("foundry-" ++ current ++ "." ++ licenseNs
            ++ ".svc.cluster.local")).error.getD "" ++ ")"))
  ∧ (optTruthy (probe ("foundry-" ++ current ++ "." ++ licenseNs
        ++ ".svc.cluster.local")).error = false →
      (probe ("foundry-" ++ current ++ "." ++ licenseNs
        ++ ".svc.cluster.local")).connectedPlayers > 0 →
      (arbitrate current desired "block" (some key) licenseNs probe).active = current
    ∧ (arbitrate current desired "block" (some key) licenseNs probe).warning
        = some ("Switch to \x27" ++ desired ++ "\x27 blocked: "
          ++ toString (probe ("foundry-" ++ current ++ "." ++ licenseNs
            ++ ".svc.cluster.local")).connectedPlayers
          ++ " players connected to \x27" ++ current ++ "\x27"))
  ∧ (optTruthy (probe ("foundry-" ++ current ++ "." ++ licenseNs
        ++ ".svc.cluster.local")).error = false →
      (probe ("foundry-" ++ current ++ "." ++ licenseNs
        ++ ".svc.cluster.local")).connectedPlayers = 0 →
      (arbitrate current desired "block" (some key) licenseNs probe).active = desired
    ∧ (arbitrate current desired "block" (some key) licenseNs probe).warning = none) := by
  rw [arbitrate_block_eval current desired key licenseNs probe h1 h2 h3 hk]
  refine ⟨?_, ?_, ?_, ?_⟩
  · by_cases he : optTruthy (probe ("foundry-" ++ current ++ "." ++ licenseNs
        ++ ".svc.cluster.local")).error = true
    · rw [if_pos he]
    · rw [if_neg he]
      by_cases hp : (probe ("foundry-" ++ current ++ "." ++ licenseNs
          ++ ".svc.cluster.local")).connectedPlayers > 0
      · rw [if_pos hp]
      · rw [if_neg hp]
  · intro he
    rw [if_pos he]
    exact ⟨rfl, rfl⟩
  · intro he hp
    rw [if_neg (by simp [he]), if_pos hp]
    exact ⟨rfl, rfl⟩
  · intro he hz
    rw [if_neg (by simp [he]), if_neg (by simp [hz])]
    exact ⟨rfl, rfl⟩

/-- C4 witness: the zero-count probe on a concrete switch request. -/
theorem c4_block_probe_witness :
    (("a" : String) ≠ "" ∧ ("b" : String) ≠ "" ∧ ("a" : String) ≠ "b"
      ∧ ("k" : String) ≠ "")
  ∧ (((arbitrate "a" "b" "block" (some "k") "ns" probeZero).probed
      = ["foundry-" ++ "a" ++ "." ++ "ns" ++ ".svc.cluster.local"])
    ∧ (optTruthy (probeZero ("foundry-" ++ "a" ++ "." ++ "ns"
          ++ ".svc.cluster.local")).error = true →
        (arbitrate "a" "b" "block" (some "k") "ns" probeZero).active = "a"
      ∧ (arbitrate "a" "b" "block" (some "k") "ns" probeZero).warning
          = some ("Switch to \x27" ++ "b"
            ++ "\x27 blocked: Unable to verify player count on \x27" ++ "a"
            ++ "\x27 (" ++ (probeZero ("foundry-" ++ "a" ++ "." ++ "ns"
              ++ ".svc.cluster.local")).error.getD "" ++ ")"))
    ∧ (optTruthy (probeZero ("foundry-" ++ "a" ++ "." ++ "ns"
          ++ ".svc.cluster.local")).error = false →
        (probeZero ("foundry-" ++ "a" ++ "." ++ "ns"
          ++ ".svc.cluster.local")).connectedPlayers > 0 →
        (arbitrate "a" "b" "block" (some "k") "ns" probeZero).active = "a"
      ∧ (arbitrate "a" "b" "block" (some "k") "ns" probeZero).warning
          = some ("Switch to \x27" ++ "b" ++ "\x27 blocked: "
            ++ toString (probeZero ("foundry-" ++ "a" ++ "." ++ "ns"
              ++ ".svc.cluster.local")).connectedPlayers
            ++ " players connected to \x27" ++ "a" ++ "\x27"))
    ∧ (optTruthy (probeZero ("foundry-" ++ "a" ++ "." ++ "ns"
          ++ ".svc.cluster.local")).error = false →
        (probeZero ("foundry-" ++ "a" ++ "." ++ "ns"
          ++ ".svc.cluster.local")).connectedPlayers = 0 →
        (arbitrate "a" "b" "block" (some "k") "ns" probeZero).active = "b"
      ∧ (arbitrate "a" "b" "block" (some "k") "ns" probeZero).warning = none)) :=
  ⟨by decide,
   c4_block_probe "a" "b" "k" "ns" probeZero (by decide) (by decide) (by decide) (by decide)⟩

/-- C7: a force-policy switch request arbitrates to the desired holder with
no warning and an empty probe record, and the whole generate_routes run of a
force-mode License performs no probe call at all. -/
theorem c7_force_bypass (current desired licenseNs : String) (adminKey : Option String)
    (probe : String → PlayerStats) (res : LicenseResource) (instances : List Instance)
    (h1 : current ≠ "") (h2 : desired ≠ "") (h3 : current ≠ desired)
    (hmode : res.switchMode = some "force") :
    arbitrate current desired "force" adminKey licenseNs probe
      = { active := desired, warning := none, probed := [] }
  ∧ (generate_routes res instances adminKey probe).probed = [] := by
  constructor
  · unfold arbitrate
    rw [if_pos (by simp [h1, h2, h3]), if_neg (by decide)]
  · have e : (generate_routes res instances adminKey probe).probed
        = (arbitrate (res.statusActiveInstance.getD "") (res.activeInstanceName.getD "")
            (res.switchMode.getD "block") adminKey res.ns probe).probed := rfl
    rw [e, hmode]
    show (arbitrate (res.statusActiveInstance.getD "") (res.activeInstanceName.getD "")
        "force" adminKey res.ns probe).probed = []
    unfold arbitrate
    by_cases hc : ((res.statusActiveInstance.getD "") != ""
        && (res.activeInstanceName.getD "") != ""
        && (res.statusActiveInstance.getD "") != (res.activeInstanceName.getD "")) = true
    · rw [if_pos hc, if_neg (by decide)]
    · rw [if_neg hc]

/-- C7 witness: a concrete force switch with a probe that would report
players. -/
theorem c7_force_bypass_witness :
    (("a" : String) ≠ "" ∧ ("b" : String) ≠ "" ∧ ("a" : String) ≠ "b"
      ∧ bothPendingLicense.switchMode = some "force")
  ∧ arbitrate "a" "b" "force" (some "k") "ns"
      (fun _ => { connectedPlayers := 5, worldActive := none, error := none })
      = { active := "b", warning := none, probed := [] }
  ∧ (generate_routes bothPendingLicense bothPendingInstances (some "k")
      (fun _ => { connectedPlayers := 5, worldActive := none, error := none })).probed = [] :=
  ⟨by decide,
   (c7_force_bypass "a" "b" "ns" (some "k")
      (fun _ => { connectedPlayers := 5, worldActive := none, error := none })
      bothPendingLicense bothPendingInstances
      (by decide) (by decide) (by decide) (by decide)).1,
   (c7_force_bypass "a" "b" "ns" (some "k")
      (fun _ => { connectedPlayers := 5, worldActive := none, error := none })
      bothPendingLicense bothPendingInstances
      (by decide) (by decide) (by decide) (by decide)).2⟩

/-- C8: a deactivation request (empty desired holder) arbitrates to the
empty holder with no warning and no probe call, for every current holder,
every policy, every admin key and every probe. -/
theorem c8_deactivation (current mode licenseNs : String) (adminKey : Option String)
    (probe : String → PlayerStats) :
    arbitrate current "" mode adminKey licenseNs probe
      = { active := "", warning := none, probed := [] } := by
  unfold arbitrate
  rw [if_neg (by simp)]

/-- C10: a 2xx probe response whose JSON body lacks the users field yields
zero connected players and no error, so a block-mode switch away from that
holder is allowed with no warning. -/
theorem c10_missing_users_field (world : Option Bool)
    (current desired key licenseNs : String)
    (h1 : current ≠ "") (h2 : desired ≠ "") (h3 : current ≠ desired) (hk : key ≠ "") :
    check_players (HttpResult.ok none world)
      = { connectedPlayers := 0, worldActive := some (world.getD false), error := none }
  ∧ arbitrate current desired "block" (some key) licenseNs
      (fun _ => check_players (HttpResult.ok none world))
      = { active := desired, warning := none
          probed := ["foundry-" ++ current ++ "." ++ licenseNs ++ ".svc.cluster.local"] } := by
  refine ⟨rfl, ?_⟩
  rw [arbitrate_block_eval current desired key licenseNs
    (fun _ => check_players (HttpResult.ok none world)) h1 h2 h3 hk]
  rw [if_neg (by simp [check_players, optTruthy]),
    if_neg (by simp [check_players])]

/-- C10 witness: a concrete users-free 2xx body on a concrete switch. -/
theorem c10_missing_users_field_witness :
    (("a" : String) ≠ "" ∧ ("b" : String) ≠ "" ∧ ("a" : String) ≠ "b"
      ∧ ("k" : String) ≠ "")
  ∧ check_players (HttpResult.ok none (some true))
      = { connectedPlayers := 0, worldActive := some ((some true).getD false), error := none }
  ∧ arbitrate "a" "b" "block" (some "k") "ns"
      (fun _ => check_players (HttpResult.ok none (some true)))
      = { active := "b", warning := none
          probed := ["foundry-" ++ "a" ++ "." ++ "ns" ++ ".svc.cluster.local"] } :=
  ⟨by decide,
   (c10_missing_users_field (some true) "a" "b" "k" "ns"
      (by decide) (by decide) (by decide) (by decide)).1,
   (c10_missing_users_field (some true) "a" "b" "k" "ns"
      (by decide) (by decide) (by decide) (by decide)).2⟩

/-- C2 counterexample: with current holder a and desired holder b both
pending deletion and the instances listed a before b, the force switch
resolves to b, the override then reverts to a — but a is itself pending
deletion, so the claim requires the holder to be cleared to empty; the code
returns a. -/
theorem c2_counterexample :
    ((generate_routes bothPendingLicense bothPendingInstances (some "k")
        probeZero).status.activeInstance = "a")
  ∧ "a" ∈ pendingMatchedNames "lic" bothPendingInstances
  ∧ "b" ∈ pendingMatchedNames "lic" bothPendingInstances
  ∧ ((generate_routes bothPendingLicense bothPendingInstances (some "k")
        probeZero).status.activeInstance ≠ "") := by
  decide

/-- C2 (amended): the override step clears the pending holder to the current
holder whenever the current holder differs from the pending instance — even
when the current holder is itself pending deletion — and to empty only when
the current holder is that same instance, attaching the
scheduled-for-deletion warning; when the current holder is not pending
deletion, the final actual holder of the whole pass is never a
pending-deletion instance. -/
theorem c2_deletion_override_amended (res : LicenseResource) (instances : List Instance)
    (adminKey : Option String) (probe : String → PlayerStats)
    (st : LoopState) (inst : Instance)
    (hmatch : inst.licenseRef = some res.name)
    (hsched : optTruthy inst.scheduledDeleteAt = true)
    (hact : inst.name = st.active)
    (hcur : res.statusActiveInstance.getD "" ∉ pendingMatchedNames res.name instances) :
    ((processInstance res.name res.ns (res.gwBaseDomain.getD "k8s.orb.local")
        (res.gwParentRefName.getD "default-gateway") (res.gwParentRefNs.getD res.ns)
        (res.statusActiveInstance.getD "") st inst).active
      = (if res.statusActiveInstance.getD "" ≠ inst.name
          then res.statusActiveInstance.getD "" else ""))
  ∧ ((processInstance res.name res.ns (res.gwBaseDomain.getD "k8s.orb.local")
        (res.gwParentRefName.getD "default-gateway") (res.gwParentRefNs.getD res.ns)
        (res.statusActiveInstance.getD "") st inst).warning
      = some ("Instance \x27" ++ inst.name
          ++ "\x27 is scheduled for deletion and cannot be active"))
  ∧ (generate_routes res instances adminKey probe).status.activeInstance
      ∉ pendingMatchedNames res.name instances := by
  refine ⟨(processInstance_fire res.name res.ns (res.gwBaseDomain.getD "k8s.orb.local")
      (res.gwParentRefName.getD "default-gateway") (res.gwParentRefNs.getD res.ns)
      (res.statusActiveInstance.getD "") st inst hmatch hsched hact).1,
    (processInstance_fire res.name res.ns (res.gwBaseDomain.getD "k8s.orb.local")
      (res.gwParentRefName.getD "default-gateway") (res.gwParentRefNs.getD res.ns)
      (res.statusActiveInstance.getD "") st inst hmatch hsched hact).2, ?_⟩
  have e : (generate_routes res instances adminKey probe).status.activeInstance
      = (routeLoop res.name res.ns (res.gwBaseDomain.getD "k8s.orb.local")
          (res.gwParentRefName.getD "default-gateway") (res.gwParentRefNs.getD res.ns)
          (res.statusActiveInstance.getD "")
          { active := (arbitrate (res.statusActiveInstance.getD "")
              (res.activeInstanceName.getD "") (res.switchMode.getD "block") adminKey
              res.ns probe).active
            warning := (arbitrate (res.statusActiveInstance.getD "")
              (res.activeInstanceName.getD "") (res.switchMode.getD "block") adminKey
              res.ns probe).warning
            registered := []
            outputs := [] } instances).active := rfl
  rw [e]
  by_cases hin : (arbitrate (res.statusActiveInstance.getD "")
      (res.activeInstanceName.getD "") (res.switchMode.getD "block") adminKey
      res.ns probe).active ∈ pendingMatchedNames res.name instances
  · rw [routeLoop_active_pending res.name res.ns (res.gwBaseDomain.getD "k8s.orb.local")
      (res.gwParentRefName.getD "default-gateway") (res.gwParentRefNs.getD res.ns)
      (res.statusActiveInstance.getD "") instances _ hcur hin]
    exact hcur
  · rcases routeLoop_active_or_current res.name res.ns (res.gwBaseDomain.getD "k8s.orb.local")
      (res.gwParentRefName.getD "default-gateway") (res.gwParentRefNs.getD res.ns)
      (res.statusActiveInstance.getD "") instances _ hcur with h | h
    · rw [h]
      exact hin
    · rw [h]
      exact hcur

/-- C2 witness: the override at a concrete pending instance b with
non-pending current holder a. -/
theorem c2_deletion_override_amended_witness :
    ((⟨"b", some "lic", some "2026-01-01T00:00:00Z"⟩ : Instance).licenseRef
        = some pendingDesiredLicense.name
      ∧ optTruthy (⟨"b", some "lic", some "2026-01-01T00:00:00Z"⟩ : Instance).scheduledDeleteAt
        = true
      ∧ (⟨"b", some "lic", some "2026-01-01T00:00:00Z"⟩ : Instance).name
        = (⟨"b", none, [], []⟩ : LoopState).active
      ∧ pendingDesiredLicense.statusActiveInstance.getD ""
        ∉ pendingMatchedNames pendingDesiredLicense.name
            [(⟨"b", some "lic", some "2026-01-01T00:00:00Z"⟩ : Instance)])
  ∧ ((processInstance pendingDesiredLicense.name pendingDesiredLicense.ns
        (pendingDesiredLicense.gwBaseDomain.getD "k8s.orb.local")
        (pendingDesiredLicense.gwParentRefName.getD "default-gateway")
        (pendingDesiredLicense.gwParentRefNs.getD pendingDesiredLicense.ns)
        (pendingDesiredLicense.statusActiveInstance.getD "")
        (⟨"b", none, [], []⟩ : LoopState)
        (⟨"b", some "lic", some "2026-01-01T00:00:00Z"⟩ : Instance)).active
      = (if pendingDesiredLicense.statusActiveInstance.getD ""
            ≠ (⟨"b", some "lic", some "2026-01-01T00:00:00Z"⟩ : Instance).name
          then pendingDesiredLicense.statusActiveInstance.getD "" else ""))
  ∧ ((processInstance pendingDesiredLicense.name pendingDesiredLicense.ns
        (pendingDesiredLicense.gwBaseDomain.getD "k8s.orb.local")
        (pendingDesiredLicense.gwParentRefName.getD "default-gateway")
        (pendingDesiredLicense.gwParentRefNs.getD pendingDesiredLicense.ns)
        (pendingDesiredLicense.statusActiveInstance.getD "")
        (⟨"b", none, [], []⟩ : LoopState)
        (⟨"b", some "lic", some "2026-01-01T00:00:00Z"⟩ : Instance)).warning
      = some ("Instance \x27"
          ++ (⟨"b", some "lic", some "2026-01-01T00:00:00Z"⟩ : Instance).name
          ++ "\x27 is scheduled for deletion and cannot be active"))
  ∧ (generate_routes pendingDesiredLicense
        [(⟨"b", some "lic", some "2026-01-01T00:00:00Z"⟩ : Instance)] (some "k")
        probeZero).status.activeInstance
      ∉ pendingMatchedNames pendingDesiredLicense.name
          [(⟨"b", some "lic", some "2026-01-01T00:00:00Z"⟩ : Instance)] :=
  ⟨by decide,
   (c2_deletion_override_amended pendingDesiredLicense
      [(⟨"b", some "lic", some "2026-01-01T00:00:00Z"⟩ : Instance)] (some "k") probeZero
      (⟨"b", none, [], []⟩ : LoopState)
      (⟨"b", some "lic", some "2026-01-01T00:00:00Z"⟩ : Instance)
      (by decide) (by decide) (by decide) (by decide)).1,
   (c2_deletion_override_amended pendingDesiredLicense
      [(⟨"b", some "lic", some "2026-01-01T00:00:00Z"⟩ : Instance)] (some "k") probeZero
      (⟨"b", none, [], []⟩ : LoopState)
      (⟨"b", some "lic", some "2026-01-01T00:00:00Z"⟩ : Instance)
      (by decide) (by decide) (by decide) (by decide)).2.1,
   (c2_deletion_override_amended pendingDesiredLicense
      [(⟨"b", some "lic", some "2026-01-01T00:00:00Z"⟩ : Instance)] (some "k") probeZero
      (⟨"b", none, [], []⟩ : LoopState)
      (⟨"b", some "lic", some "2026-01-01T00:00:00Z"⟩ : Instance)
      (by decide) (by decide) (by decide) (by decide)).2.2⟩

/-- C3 counterexample: with current holder a, desired holder b pending
deletion, the instances listed a before b, the final actual holder in the
status is a, yet the route of a is standby — no route is active at all — so
state active is not equivalent to carrying the final holder name. -/
theorem c3_counterexample :
    ((generate_routes pendingDesiredLicense pendingDesiredInstances (some "k")
        probeZero).status.activeInstance = "a")
  ∧ (("a", "standby") ∈ (generate_routes pendingDesiredLicense pendingDesiredInstances
        (some "k") probeZero).status.registeredInstances)
  ∧ (∀ p ∈ (generate_routes pendingDesiredLicense pendingDesiredInstances (some "k")
        probeZero).status.registeredInstances, p.2 ≠ "active") := by
  decide

/-- C3 (amended): every matching Instance gets exactly one route (names and
files in listing order), whose hostname is name.baseDomain and whose backend
is the own service of the instance exactly for the active state and the shared
standby page otherwise; a route is active only if its name is the final
actual holder, the equivalence holding whenever no matching instance is
pending deletion; a pending-deletion instance is always registered
standby. -/
theorem c3_route_shape_amended (res : LicenseResource) (instances : List Instance)
    (adminKey : Option String) (probe : String → PlayerStats)
    (hnd : (instances.map Instance.name).Nodup)
    (hne : ∀ i ∈ instances, i.name ≠ "") :
    ((generate_routes res instances adminKey probe).status.registeredInstances.map Prod.fst
      = (instances.filter (fun i => i.licenseRef == some res.name)).map Instance.name)
  ∧ ((generate_routes res instances adminKey probe).outputs.map Prod.fst
      = (instances.filter (fun i => i.licenseRef == some res.name)).map
          (fun i => "route-" ++ i.name ++ ".yaml"))
  ∧ (∀ p ∈ (generate_routes res instances adminKey probe).status.registeredInstances,
      expectedRoutePair res.name res.ns (res.gwBaseDomain.getD "k8s.orb.local")
        (res.gwParentRefName.getD "default-gateway") (res.gwParentRefNs.getD res.ns) p
        ∈ (generate_routes res instances adminKey probe).outputs)
  ∧ (∀ p ∈ (generate_routes res instances adminKey probe).status.registeredInstances,
      p.2 = "active" →
      p.1 = (generate_routes res instances adminKey probe).status.activeInstance)
  ∧ (∀ i ∈ instances, i.licenseRef = some res.name →
      optTruthy i.scheduledDeleteAt = true →
      (i.name, "standby")
        ∈ (generate_routes res instances adminKey probe).status.registeredInstances)
  ∧ (pendingMatchedNames res.name instances = [] →
      ∀ p ∈ (generate_routes res instances adminKey probe).status.registeredInstances,
        (p.2 = "active"
          ↔ p.1 = (generate_routes res instances adminKey probe).status.activeInstance)) := by
  refine ⟨?_, ?_, ?_, ?_, ?_, ?_⟩
  · have h := routeLoop_registered_names res.name res.ns (res.gwBaseDomain.getD "k8s.orb.local")
      (res.gwParentRefName.getD "default-gateway") (res.gwParentRefNs.getD res.ns)
      (res.statusActiveInstance.getD "") instances
      { active := (arbitrate (res.statusActiveInstance.getD "")
          (res.activeInstanceName.getD "") (res.switchMode.getD "block") adminKey res.ns
          probe).active
        warning := (arbitrate (res.statusActiveInstance.getD "")
          (res.activeInstanceName.getD "") (res.switchMode.getD "block") adminKey res.ns
          probe).warning
        registered := []
        outputs := [] }
    simpa using h
  · have h := routeLoop_output_names res.name res.ns (res.gwBaseDomain.getD "k8s.orb.local")
      (res.gwParentRefName.getD "default-gateway") (res.gwParentRefNs.getD res.ns)
      (res.statusActiveInstance.getD "") instances
      { active := (arbitrate (res.statusActiveInstance.getD "")
          (res.activeInstanceName.getD "") (res.switchMode.getD "block") adminKey res.ns
          probe).active
        warning := (arbitrate (res.statusActiveInstance.getD "")
          (res.activeInstanceName.getD "") (res.switchMode.getD "block") adminKey res.ns
          probe).warning
        registered := []
        outputs := [] }
    simpa using h
  · exact routeLoop_registered_outputs res.name res.ns (res.gwBaseDomain.getD "k8s.orb.local")
      (res.gwParentRefName.getD "default-gateway") (res.gwParentRefNs.getD res.ns)
      (res.statusActiveInstance.getD "") instances
      { active := (arbitrate (res.statusActiveInstance.getD "")
          (res.activeInstanceName.getD "") (res.switchMode.getD "block") adminKey res.ns
          probe).active
        warning := (arbitrate (res.statusActiveInstance.getD "")
          (res.activeInstanceName.getD "") (res.switchMode.getD "block") adminKey res.ns
          probe).warning
        registered := []
        outputs := [] }
      (by simp)
  · exact (routeLoop_active_unique res.name res.ns (res.gwBaseDomain.getD "k8s.orb.local")
      (res.gwParentRefName.getD "default-gateway") (res.gwParentRefNs.getD res.ns)
      (res.statusActiveInstance.getD "") instances
      { active := (arbitrate (res.statusActiveInstance.getD "")
          (res.activeInstanceName.getD "") (res.switchMode.getD "block") adminKey res.ns
          probe).active
        warning := (arbitrate (res.statusActiveInstance.getD "")
          (res.activeInstanceName.getD "") (res.switchMode.getD "block") adminKey res.ns
          probe).warning
        registered := []
        outputs := [] }
      hnd (by simp) (by simp)).2
  · intro i hi hm hs
    exact routeLoop_pending_standby res.name res.ns (res.gwBaseDomain.getD "k8s.orb.local")
      (res.gwParentRefName.getD "default-gateway") (res.gwParentRefNs.getD res.ns)
      (res.statusActiveInstance.getD "") instances
      { active := (arbitrate (res.statusActiveInstance.getD "")
          (res.activeInstanceName.getD "") (res.switchMode.getD "block") adminKey res.ns
          probe).active
        warning := (arbitrate (res.statusActiveInstance.getD "")
          (res.activeInstanceName.getD "") (res.switchMode.getD "block") adminKey res.ns
          probe).warning
        registered := []
        outputs := [] }
      i hi (hne i hi) hm hs
  · intro hno
    exact routeLoop_no_pending_iff res.name res.ns (res.gwBaseDomain.getD "k8s.orb.local")
      (res.gwParentRefName.getD "default-gateway") (res.gwParentRefNs.getD res.ns)
      (res.statusActiveInstance.getD "") instances
      { active := (arbitrate (res.statusActiveInstance.getD "")
          (res.activeInstanceName.getD "") (res.switchMode.getD "block") adminKey res.ns
          probe).active
        warning := (arbitrate (res.statusActiveInstance.getD "")
          (res.activeInstanceName.getD "") (res.switchMode.getD "block") adminKey res.ns
          probe).warning
        registered := []
        outputs := [] }
      hno (by simp)

/-- C3 witness: the two-instance License of the repository test. -/
theorem c3_route_shape_amended_witness :
    ((dnsTestInstances.map Instance.name).Nodup ∧ ∀ i ∈ dnsTestInstances, i.name ≠ "")
  ∧ (((generate_routes dnsTestLicense dnsTestInstances (some "test-key")
        probeZero).status.registeredInstances.map Prod.fst
      = (dnsTestInstances.filter
          (fun i => i.licenseRef == some dnsTestLicense.name)).map Instance.name)
    ∧ ((generate_routes dnsTestLicense dnsTestInstances (some "test-key")
          probeZero).outputs.map Prod.fst
      = (dnsTestInstances.filter (fun i => i.licenseRef == some dnsTestLicense.name)).map
          (fun i => "route-" ++ i.name ++ ".yaml"))
    ∧ (∀ p ∈ (generate_routes dnsTestLicense dnsTestInstances (some "test-key")
          probeZero).status.registeredInstances,
        expectedRoutePair dnsTestLicense.name dnsTestLicense.ns
          (dnsTestLicense.gwBaseDomain.getD "k8s.orb.local")
          (dnsTestLicense.gwParentRefName.getD "default-gateway")
          (dnsTestLicense.gwParentRefNs.getD dnsTestLicense.ns) p
          ∈ (generate_routes dnsTestLicense dnsTestInstances (some "test-key")
              probeZero).outputs)
    ∧ (∀ p ∈ (generate_routes dnsTestLicense dnsTestInstances (some "test-key")
          probeZero).status.registeredInstances,
        p.2 = "active" →
        p.1 = (generate_routes dnsTestLicense dnsTestInstances (some "test-key")
            probeZero).status.activeInstance)
    ∧ (∀ i ∈ dnsTestInstances, i.licenseRef = some dnsTestLicense.name →
        optTruthy i.scheduledDeleteAt = true →
        (i.name, "standby") ∈ (generate_routes dnsTestLicense dnsTestInstances
            (some "test-key") probeZero).status.registeredInstances)
    ∧ (pendingMatchedNames dnsTestLicense.name dnsTestInstances = [] →
        ∀ p ∈ (generate_routes dnsTestLicense dnsTestInstances (some "test-key")
            probeZero).status.registeredInstances,
          (p.2 = "active"
            ↔ p.1 = (generate_routes dnsTestLicense dnsTestInstances (some "test-key")
                probeZero).status.activeInstance))) :=
  ⟨⟨by decide, by decide⟩,
   c3_route_shape_amended dnsTestLicense dnsTestInstances (some "test-key") probeZero
     (by decide) (by decide)⟩

/-- C5: at the DNSEndpoint test input of the repository itself (a License whose
gateway declares a public endpoint, two bound instances), generate_routes
writes only the two HTTPRoute files and no DNS-binding descriptor at all —
contradicting the test test_public_ip_creates_dns_endpoint, which expects
dns-instance-1.yaml and dns-instance-2.yaml DNSEndpoint outputs, and the
docstring of the function itself. -/
theorem c5_no_dns_endpoint_outputs :
    ((generate_routes dnsTestLicense dnsTestInstances (some "test-key")
        probeZero).outputs.map Prod.fst
      = ["route-instance-1.yaml", "route-instance-2.yaml"])
  ∧ ((generate_routes dnsTestLicense dnsTestInstances (some "test-key")
        probeZero).outputs.all (fun o => !o.2.isDns) = true) := by
  decide

/-- C6 counterexample: an allowed block-mode switch probes once inside
generate_routes and main() then probes the new active instance again in its
status step, so one reconciliation pass performs two probe calls. -/
theorem c6_counterexample :
    ((main_run secondProbeLicense secondProbeInstances (some "k") probeZero).probed
      = ["foundry-a.ns.svc.cluster.local", "foundry-b.ns.svc.cluster.local"])
  ∧ ¬((main_run secondProbeLicense secondProbeInstances (some "k")
        probeZero).probed.length ≤ 1) := by
  decide

/-- C6 (amended): the arbitration and generate_routes invoke check_players at
most once per pass; the full main() run adds at most one further stats probe
of the resulting active instance, so at most two invocations per pass. -/
theorem c6_probe_counts (current desired mode licenseNs : String)
    (adminKey : Option String) (probe : String → PlayerStats)
    (res : LicenseResource) (instances : List Instance) :
    (arbitrate current desired mode adminKey licenseNs probe).probed.length ≤ 1
  ∧ (generate_routes res instances adminKey probe).probed.length ≤ 1
  ∧ (main_run res instances adminKey probe).probed.length ≤ 2 := by
  have harb : ∀ (c d m ns : String) (k : Option String) (p : String → PlayerStats),
      (arbitrate c d m k ns p).probed.length ≤ 1 := by
    intro c d m ns k p
    unfold arbitrate
    split
    · split
      · split
        · simp only [optTruthy]
          split
          · simp
          · split <;> simp
        · simp
      · simp
    · simp
  have hg : (generate_routes res instances adminKey probe).probed.length ≤ 1 := by
    show (arbitrate (res.statusActiveInstance.getD "") (res.activeInstanceName.getD "")
        (res.switchMode.getD "block") adminKey res.ns probe).probed.length ≤ 1
    exact harb _ _ _ _ _ _
  refine ⟨harb _ _ _ _ _ _, hg, ?_⟩
  simp only [main_run]
  split
  · simp only [List.length_append, List.length_singleton]
    omega
  · exact le_trans hg (by omega)

/-- C9 counterexample: in the two-caller create race, the losing caller
treats the 409 as success but performs no further store read — its operation
trace ends at the conflicted create — and it keeps its own locally generated
password, which differs from the winning stored value, so the winning value
is not re-read and reused. -/
theorem c9_counterexample :
    ((race_both_create "pw-winner" "pw-loser").finalStore = some "pw-winner")
  ∧ ((race_both_create "pw-winner" "pw-loser").r2
      = Except.ok { adminPassword := "pw-loser", passwordPendingNotification := true
                    ops := [SecretOp.readSecret false,
                            SecretOp.createSecret "pw-loser" true] })
  ∧ ("pw-loser" : String) ≠ "pw-winner" := by
  decide

/-- C9 (amended): a create conflict is treated as success rather than an
error — the losing caller returns normally with no store operation after the
conflicted create, the winning stored value is left in place as the single
surviving value (consumers reference the secret by name), and a 409 never
escalates on any path of the secret resolution. -/
theorem c9_conflict_treated_as_success (fresh1 fresh2 : String) :
    ((race_both_create fresh1 fresh2).finalStore = some fresh1)
  ∧ ((race_both_create fresh1 fresh2).r1
      = Except.ok { adminPassword := fresh1, passwordPendingNotification := true
                    ops := [SecretOp.readSecret false,
                            SecretOp.createSecret fresh1 false] })
  ∧ ((race_both_create fresh1 fresh2).r2
      = Except.ok { adminPassword := fresh2, passwordPendingNotification := true
                    ops := [SecretOp.readSecret false,
                            SecretOp.createSecret fresh2 true] })
  ∧ (∀ (existing : Option String) (regenerate : Bool) (fresh : String),
      ∃ out, resolve_admin_secret existing regenerate fresh (some 409)
        = Except.ok out) := by
  refine ⟨rfl, rfl, rfl, ?_⟩
  intro existing regenerate fresh
  simp only [resolve_admin_secret]
  by_cases h1 : (optTruthy existing && !regenerate) = true
  · rw [if_pos h1]
    exact ⟨_, rfl⟩
  · rw [if_neg h1]
    by_cases h2 : (optTruthy existing && regenerate) = true
    · rw [if_pos h2]
      exact ⟨_, rfl⟩
    · rw [if_neg h2]
      exact ⟨_, rfl⟩

end KratixFoundry
